import Mathlib

/-!
Verification development for the IRBEM field-line classification scripts
(`src/python/IRBEM/classifying_foottype.py`, `test_classifyer.py`,
`test_classifier.py`, `trace_field_line.py`).

Modelling conventions:
- Numeric values that the scripts only compare for exact equality or divide
  (coordinates, driver parameters, the sentinel "bad data" values) are
  modelled as rationals `ℚ`; the Python float literals `1e31`, `-1e31`,
  `-9999`, `9999` become the exact rationals `10^31`, `-10^31`, `-9999`,
  `9999`.  The scripts perform no rounding-sensitive arithmetic on these
  values (only equality tests and a division by 6371), so the injection of
  IEEE doubles into `ℚ` preserves every comparison the code makes.
- The external IRBEM library (`MagFields` with its `find_foot_point` and
  `trace_field_line` methods) is out of scope and is modelled as an abstract
  stateful collaborator `ExternalLib σ`: constructing a model object yields
  an initial state from the constructor configuration, and each method call
  consumes a state and returns a result (or an exception, as `Except`)
  together with the next state.  Quantifying over `ExternalLib σ` quantifies
  over every possible external-model behaviour, including raising.
- Python `try/except` around a call becomes a `match` on the `Except` result;
  `print` calls are pure no-ops and are dropped.
- A pandas dataframe row becomes the record `OrbitRow`; any columns beyond
  the ones the script reads are kept abstractly in the `extra` field so that
  "all original columns unchanged" is expressible.
-/

/-- Configuration passed to the `MagFields` constructor:
`options`, `verbose`, `kext`, `sysaxes`. -/
structure MagConfig where
  options : List ℤ
  verbose : Bool
  kext : ℤ
  sysaxes : ℤ
deriving DecidableEq

/-- Input dictionary for a footpoint / trace query: coordinates plus the
`dateTime` string. -/
structure LLA where
  x1 : ℚ
  x2 : ℚ
  x3 : ℚ
  dateTime : String
deriving DecidableEq

/-- A position dictionary with keys `x1`, `x2`, `x3`. -/
structure Position where
  x1 : ℚ
  x2 : ℚ
  x3 : ℚ
deriving DecidableEq

/-- A `maginput` dictionary: named driver parameters, modelled as an
association list so that the exact key names the scripts use are kept. -/
abbrev Maginput := List (String × ℚ)

/-- Output dictionary of `find_foot_point`.  The classifier only reads the
key `XFOOT` (via `output.get`, hence `Option`); the coordinate list may in
principle have any length, which the validity check never inspects. -/
structure FootOutput where
  XFOOT : Option (List ℚ)
deriving DecidableEq

/-- Output dictionary of `trace_field_line`: positions along the field line
plus auxiliary scalars.  Only presence of `POSIT` is ever branched on by the
scripts under verification. -/
structure TraceOutput where
  POSIT : Option (List (ℚ × ℚ × ℚ))
  Nposit : ℤ
  lm : ℚ
  bmin : ℚ
deriving DecidableEq

/-- The abstract external IRBEM collaborator.  `σ` is its internal state:
`init` models the `MagFields(...)` constructor, and each method threads the
state explicitly.  A `.error` result models a raised Python exception with
its message. -/
structure ExternalLib (σ : Type) where
  init : MagConfig → σ
  find_foot_point : σ → LLA → Maginput → ℚ → ℤ → Except String FootOutput × σ
  trace_field_line : σ → LLA → Maginput → Except String TraceOutput × σ

/-- The IRBEM "bad data" sentinel values `[1e+31, -1e+31, -9999, 9999]`. -/
def baddata : List ℚ := [10 ^ 31, -(10 ^ 31), -9999, 9999]

/-- Embedding of `check_if_footpoint_found` (classifying_foottype.py,
lines 59-79): absent `XFOOT` means not found; otherwise found exactly when
no component is a sentinel (`np.any(np.isin(Xfoot, baddata))`). -/
def check_if_footpoint_found (output : FootOutput) : ℕ :=
  match output.XFOOT with
  | none => 0
  | some xfoot =>
      if xfoot.any fun x => decide (x ∈ baddata) then 0
      else 1

/-- Embedding of `classify_field_line` (classifying_foottype.py, lines
8-57).  The external library is a parameter; the function returns the
classification string together with the final library state. -/
def classify_field_line {σ : Type} (lib : ExternalLib σ) (position : Position)
    (dateTime : String) (maginput : Maginput) : String × σ :=
  let s := lib.init ⟨[0, 0, 0, 0, 0], true, 7, 3⟩
  let lla : LLA := ⟨position.x1, position.x2, position.x3, dateTime⟩
  let stopAlt : ℚ := 100
  let hemiFlags : List ℤ := [1, -1]
  let r := hemiFlags.foldl
    (fun acc hemiFlag =>
      match lib.find_foot_point acc.2 lla maginput stopAlt hemiFlag with
      | (Except.error _, s') => (acc.1, s')
      | (Except.ok output, s') => (acc.1 + check_if_footpoint_found output, s'))
    ((0 : ℕ), s)
  let footpoints_found := r.1
  let classification :=
    if footpoints_found = 2 then "closed"
    else if footpoints_found = 1 then "open"
    else "IMF"
  (classification, r.2)

/-- The footpoint count accumulated by `classify_field_line`'s hemisphere
loop, exposed for the statements about it. -/
def footpointsFound {σ : Type} (lib : ExternalLib σ) (position : Position)
    (dateTime : String) (maginput : Maginput) : ℕ :=
  let s := lib.init ⟨[0, 0, 0, 0, 0], true, 7, 3⟩
  let lla : LLA := ⟨position.x1, position.x2, position.x3, dateTime⟩
  let stopAlt : ℚ := 100
  let hemiFlags : List ℤ := [1, -1]
  (hemiFlags.foldl
    (fun acc hemiFlag =>
      match lib.find_foot_point acc.2 lla maginput stopAlt hemiFlag with
      | (Except.error _, s') => (acc.1, s')
      | (Except.ok output, s') => (acc.1 + check_if_footpoint_found output, s'))
    ((0 : ℕ), s)).1

/-- Embedding of `prepare_maginput` (classifying_foottype.py, lines 81-88). -/
def prepare_maginput (Dst_index Pdyn BY_GSM BZ_GSM : ℚ) : Maginput :=
  [("Dst", Dst_index), ("Pdyn", Pdyn), ("ByIMF", BY_GSM), ("BzIMF", BZ_GSM)]

/-- Embedding of `get_numeric_classification` (classifying_foottype.py,
lines 90-97): dictionary lookup with default `-1`. -/
def get_numeric_classification (classification : String) : ℤ :=
  let classification_map : List (String × ℤ) := [("IMF", 1), ("open", 0), ("closed", 2)]
  match classification_map.lookup classification with
  | some code => code
  | none => -1

/-- One row of the orbit table read by `process_orbit_data`.  The timestamp
is modelled by the ISO string `strftime` produces for it; columns the script
never reads are kept in `extra`. -/
structure OrbitRow where
  x_km : ℚ
  y_km : ℚ
  z_km : ℚ
  datetime : String
  Dst_index : ℚ
  Pdyn : ℚ
  BY_GSM : ℚ
  BZ_GSM : ℚ
  extra : List (String × ℚ)
deriving DecidableEq

/-- Embedding of `process_orbit_data` (classifying_foottype.py, lines
99-124): classify each row independently and attach the numeric code as the
added `field_line_type` column, modelled by pairing each original row with
its code. -/
def process_orbit_data {σ : Type} (lib : ExternalLib σ) (df : List OrbitRow) :
    List (OrbitRow × ℤ) :=
  let classifications := df.map fun row =>
    let position : Position := ⟨row.x_km / 6371, row.y_km / 6371, row.z_km / 6371⟩
    let datetime_str := row.datetime
    let maginput := prepare_maginput row.Dst_index row.Pdyn row.BY_GSM row.BZ_GSM
    let classification := (classify_field_line lib position datetime_str maginput).1
    get_numeric_classification classification
  df.zip classifications

/-- The contribution of one hemisphere attempt to the footpoint count: a
raised exception contributes `0`, a returned output contributes its validity
check. -/
def hemiContribution (r : Except String FootOutput) : ℕ :=
  match r with
  | Except.error _ => 0
  | Except.ok output => check_if_footpoint_found output

/-- An observable call to the external library: either a `find_foot_point`
query with its hemisphere flag and stop altitude, or a `trace_field_line`
query. -/
inductive CallEvent where
  | foot (hemiFlag : ℤ) (stopAlt : ℚ)
  | trace
deriving DecidableEq

/-- Instrument an external library so that its state additionally records
the sequence of method calls made on it, in order. -/
def withLog {σ : Type} (lib : ExternalLib σ) : ExternalLib (σ × List CallEvent) where
  init cfg := (lib.init cfg, [])
  find_foot_point s lla maginput stopAlt hemiFlag :=
    let r := lib.find_foot_point s.1 lla maginput stopAlt hemiFlag
    (r.1, (r.2, s.2 ++ [CallEvent.foot hemiFlag stopAlt]))
  trace_field_line s lla maginput :=
    let r := lib.trace_field_line s.1 lla maginput
    (r.1, (r.2, s.2 ++ [CallEvent.trace]))

namespace TestClassifyer

/-- Embedding of `check_if_footpoint_found` (test_classifyer.py, lines
68-88); its body is identical to the one in classifying_foottype.py. -/
def check_if_footpoint_found (output : FootOutput) : ℕ :=
  match output.XFOOT with
  | none => 0
  | some xfoot =>
      if xfoot.any fun x => decide (x ∈ baddata) then 0
      else 1

/-- Embedding of `classify_field_line` (test_classifyer.py, lines 5-66).
It differs from classifying_foottype.py only in diagnostic printing (dropped)
and in not passing `verbose=True` to the constructor; the library default for
`verbose` is modelled from the spec as `false` (spec section 6 lists the
verbosity flag as a pure logging control of the out-of-scope collaborator). -/
def classify_field_line {σ : Type} (lib : ExternalLib σ) (position : Position)
    (dateTime : String) (maginput : Maginput) : String × σ :=
  let s := lib.init ⟨[0, 0, 0, 0, 0], false, 7, 3⟩
  let lla : LLA := ⟨position.x1, position.x2, position.x3, dateTime⟩
  let stopAlt : ℚ := 100
  let hemiFlags : List ℤ := [1, -1]
  let r := hemiFlags.foldl
    (fun acc hemiFlag =>
      match lib.find_foot_point acc.2 lla maginput stopAlt hemiFlag with
      | (Except.error _, s') => (acc.1, s')
      | (Except.ok output, s') => (acc.1 + check_if_footpoint_found output, s'))
    ((0 : ℕ), s)
  let footpoints_found := r.1
  let classification :=
    if footpoints_found = 2 then "closed"
    else if footpoints_found = 1 then "open"
    else "IMF"
  (classification, r.2)

end TestClassifyer

namespace TestClassifier

/-- Embedding of `check_if_footpoint_found` (test_classifier.py, lines
77-97); its body is identical to the one in classifying_foottype.py. -/
def check_if_footpoint_found (output : FootOutput) : ℕ :=
  match output.XFOOT with
  | none => 0
  | some xfoot =>
      if xfoot.any fun x => decide (x ∈ baddata) then 0
      else 1

/-- Embedding of `classify_field_line` (test_classifier.py, lines 7-75).
Unlike the other two variants it calls `trace_field_line` before the
hemisphere loop, outside any `try`: a raised trace exception propagates out
(modelled by the `Except` in the result), and when `plot` is set and `POSIT`
is present the trace output is plotted — a pure side effect with no influence
on the returned value, so the plot branch contributes nothing here. -/
def classify_field_line {σ : Type} (lib : ExternalLib σ) (position : Position)
    (dateTime : String) (maginput : Maginput) (plot : Bool) :
    Except String String × σ :=
  let s := lib.init ⟨[0, 0, 0, 0, 0], false, 7, 3⟩
  let lla : LLA := ⟨position.x1, position.x2, position.x3, dateTime⟩
  let stopAlt : ℚ := 100
  let hemiFlags : List ℤ := [1, -1]
  match lib.trace_field_line s lla maginput with
  | (Except.error e, s') => (Except.error e, s')
  | (Except.ok trace_output, s') =>
      let _plotted := plot && trace_output.POSIT.isSome
      let r := hemiFlags.foldl
        (fun acc hemiFlag =>
          match lib.find_foot_point acc.2 lla maginput stopAlt hemiFlag with
          | (Except.error _, s'') => (acc.1, s'')
          | (Except.ok output, s'') => (acc.1 + check_if_footpoint_found output, s''))
        ((0 : ℕ), s')
      let footpoints_found := r.1
      let classification :=
        if footpoints_found = 2 then "closed"
        else if footpoints_found = 1 then "open"
        else "IMF"
      (Except.ok classification, r.2)

end TestClassifier

/-- The constructor configuration used by classifying_foottype.py:
`options=[0,0,0,0,0], verbose=True, kext=7, sysaxes=3`. -/
def cfgFoottype : MagConfig := ⟨[0, 0, 0, 0, 0], true, 7, 3⟩

/-- The `LLA` dictionary `classify_field_line` builds from its inputs. -/
def mkLLA (position : Position) (dateTime : String) : LLA :=
  ⟨position.x1, position.x2, position.x3, dateTime⟩

/-- The first external query a run of `classify_field_line` makes: hemisphere
flag `+1` (North) with stop altitude `100`. -/
def northResponse {σ : Type} (lib : ExternalLib σ) (position : Position)
    (dateTime : String) (maginput : Maginput) : Except String FootOutput × σ :=
  lib.find_foot_point (lib.init cfgFoottype) (mkLLA position dateTime) maginput 100 1

/-- The second external query a run of `classify_field_line` makes: hemisphere
flag `-1` (South) with stop altitude `100`, from the state the North query
left behind. -/
def southResponse {σ : Type} (lib : ExternalLib σ) (position : Position)
    (dateTime : String) (maginput : Maginput) : Except String FootOutput × σ :=
  lib.find_foot_point (northResponse lib position dateTime maginput).2
    (mkLLA position dateTime) maginput 100 (-1)

/-- A concrete external library whose every method raises. -/
def unitLibError : ExternalLib Unit where
  init _ := ()
  find_foot_point s _ _ _ _ := (Except.error "err", s)
  trace_field_line s _ _ := (Except.error "err", s)

/-- A concrete valid footpoint output (no sentinel components). -/
def footOk : FootOutput := ⟨some [100, 45, 45]⟩

/-- A concrete trace output. -/
def traceOk : TraceOutput := ⟨some [], 0, 0, 0⟩

/-- A concrete external library whose every method succeeds, returning a
valid footpoint in both hemispheres. -/
def unitLibOk : ExternalLib Unit where
  init _ := ()
  find_foot_point s _ _ _ _ := (Except.ok footOk, s)
  trace_field_line s _ _ := (Except.ok traceOk, s)

/-- A concrete position input. -/
def pos0 : Position := ⟨7, 3, 2⟩

/-- A concrete timestamp input. -/
def dt0 : String := "2024-01-01T00:00:00"

/-- A concrete `maginput` dictionary. -/
def mi0 : Maginput := [("Pdyn", 2), ("Dst", 0), ("ByIMF", 0), ("BzIMF", 0)]

/-- A concrete orbit-table row. -/
def orbitRow0 : OrbitRow := ⟨0, 0, 0, "2024-01-01T00:00:00", 0, 2, 0, 0, [("p", 1)]⟩

theorem footpointsFound_eq {σ : Type} (lib : ExternalLib σ) (position : Position)
    (dateTime : String) (maginput : Maginput) :
    footpointsFound lib position dateTime maginput =
      hemiContribution (northResponse lib position dateTime maginput).1 +
      hemiContribution (southResponse lib position dateTime maginput).1 := by
  unfold footpointsFound northResponse southResponse cfgFoottype mkLLA
  simp only [List.foldl]
  rcases h1 : lib.find_foot_point (lib.init ⟨[0, 0, 0, 0, 0], true, 7, 3⟩)
      ⟨position.x1, position.x2, position.x3, dateTime⟩ maginput 100 1 with ⟨r1, s1⟩
  rcases h2 : lib.find_foot_point s1
      ⟨position.x1, position.x2, position.x3, dateTime⟩ maginput 100 (-1) with ⟨r2, s2⟩
  rcases r1 with e1 | o1 <;> rcases r2 with e2 | o2 <;>
    simp [northResponse, cfgFoottype, mkLLA, h1, h2, hemiContribution]

theorem classify_fst {σ : Type} (lib : ExternalLib σ) (position : Position)
    (dateTime : String) (maginput : Maginput) :
    (classify_field_line lib position dateTime maginput).1 =
      if footpointsFound lib position dateTime maginput = 2 then "closed"
      else if footpointsFound lib position dateTime maginput = 1 then "open"
      else "IMF" := rfl

theorem check_if_footpoint_found_le_one (output : FootOutput) :
    check_if_footpoint_found output = 0 ∨ check_if_footpoint_found output = 1 := by
  unfold check_if_footpoint_found
  rcases output with ⟨_ | xfoot⟩
  · exact Or.inl rfl
  · simp only
    split
    · exact Or.inl rfl
    · exact Or.inr rfl

theorem hemiContribution_le_one (r : Except String FootOutput) :
    hemiContribution r = 0 ∨ hemiContribution r = 1 := by
  rcases r with e | output
  · exact Or.inl rfl
  · exact check_if_footpoint_found_le_one output

theorem classify_fst_mem {σ : Type} (lib : ExternalLib σ) (position : Position)
    (dateTime : String) (maginput : Maginput) :
    (classify_field_line lib position dateTime maginput).1 = "closed" ∨
    (classify_field_line lib position dateTime maginput).1 = "open" ∨
    (classify_field_line lib position dateTime maginput).1 = "IMF" := by
  rw [classify_fst]
  split
  · exact Or.inl rfl
  · split
    · exact Or.inr (Or.inl rfl)
    · exact Or.inr (Or.inr rfl)

theorem classify_withLog_log {σ : Type} (lib : ExternalLib σ) (p : Position)
    (dt : String) (mi : Maginput) :
    (classify_field_line (withLog lib) p dt mi).2.2 =
      [CallEvent.foot 1 100, CallEvent.foot (-1) 100] := by
  unfold classify_field_line withLog
  simp only [List.foldl]
  rcases h1 : lib.find_foot_point (lib.init ⟨[0, 0, 0, 0, 0], true, 7, 3⟩)
      ⟨p.x1, p.x2, p.x3, dt⟩ mi 100 1 with ⟨r1, s1⟩
  rcases h2 : lib.find_foot_point s1
      ⟨p.x1, p.x2, p.x3, dt⟩ mi 100 (-1) with ⟨r2, s2⟩
  rcases r1 with e1 | o1 <;> rcases r2 with e2 | o2 <;> simp [h1, h2]

/-- C1: the classification returned by the single-point classifier is a pure
function of the found-count alone — any two runs, over any external libraries
and any (Position, Time, DriverParameters) inputs, with equal found-counts
classify identically — and the mapping is count 2 → "closed", 1 → "open",
any other value → "IMF". -/
theorem C1_classification_depends_only_on_count {σ σ' : Type}
    (lib : ExternalLib σ) (lib' : ExternalLib σ') (p p' : Position)
    (dt dt' : String) (mi mi' : Maginput)
    (h : footpointsFound lib p dt mi = footpointsFound lib' p' dt' mi') :
    (classify_field_line lib p dt mi).1 = (classify_field_line lib' p' dt' mi').1
    ∧ (footpointsFound lib p dt mi = 2 →
        (classify_field_line lib p dt mi).1 = "closed")
    ∧ (footpointsFound lib p dt mi = 1 →
        (classify_field_line lib p dt mi).1 = "open")
    ∧ (footpointsFound lib p dt mi ≠ 2 → footpointsFound lib p dt mi ≠ 1 →
        (classify_field_line lib p dt mi).1 = "IMF") := by
  refine ⟨?_, ?_, ?_, ?_⟩
  · rw [classify_fst, classify_fst, h]
  · intro h2
    rw [classify_fst, if_pos h2]
  · intro h1
    rw [classify_fst, if_neg (by omega), if_pos h1]
  · intro h2 h1
    rw [classify_fst, if_neg h2, if_neg h1]

/-- Witness for C1 at a concrete library and input. -/
theorem C1_witness :
    (classify_field_line unitLibError pos0 dt0 mi0).1 =
      (classify_field_line unitLibError pos0 dt0 mi0).1
    ∧ (footpointsFound unitLibError pos0 dt0 mi0 = 2 →
        (classify_field_line unitLibError pos0 dt0 mi0).1 = "closed")
    ∧ (footpointsFound unitLibError pos0 dt0 mi0 = 1 →
        (classify_field_line unitLibError pos0 dt0 mi0).1 = "open")
    ∧ (footpointsFound unitLibError pos0 dt0 mi0 ≠ 2 →
        footpointsFound unitLibError pos0 dt0 mi0 ≠ 1 →
        (classify_field_line unitLibError pos0 dt0 mi0).1 = "IMF") :=
  C1_classification_depends_only_on_count unitLibError unitLibError
    pos0 pos0 dt0 dt0 mi0 mi0 rfl

/-- C2: the validity check returns 0 when XFOOT is absent; on a present
coordinate triple it returns 0 exactly when some component equals one of the
four sentinels (exact equality against the set `baddata`) and 1 when all
three components avoid them. -/
theorem C2_validity_check (a b c : ℚ) (output : FootOutput)
    (habsent : output.XFOOT = none) :
    check_if_footpoint_found output = 0
    ∧ check_if_footpoint_found ⟨some [a, b, c]⟩ =
        (if a ∈ baddata ∨ b ∈ baddata ∨ c ∈ baddata then 0 else 1) := by
  constructor
  · unfold check_if_footpoint_found
    rw [habsent]
  · simp only [check_if_footpoint_found, List.any_cons, List.any_nil,
      Bool.or_false, Bool.or_eq_true, decide_eq_true_eq]

/-- Witness for C2 at a sentinel-bearing concrete triple. -/
theorem C2_witness :
    check_if_footpoint_found ⟨none⟩ = 0
    ∧ check_if_footpoint_found ⟨some [9999, 1, 2]⟩ =
        (if (9999 : ℚ) ∈ baddata ∨ (1 : ℚ) ∈ baddata ∨ (2 : ℚ) ∈ baddata
          then 0 else 1) :=
  C2_validity_check 9999 1 2 ⟨none⟩ rfl

/-- C7: the numeric-code function maps "closed" to 2, "open" to 0, "IMF" to 1,
and every other string — in particular differently-cased ones — to -1. -/
theorem C7_numeric_codes (s : String)
    (h1 : s ≠ "IMF") (h2 : s ≠ "open") (h3 : s ≠ "closed") :
    get_numeric_classification "closed" = 2
    ∧ get_numeric_classification "open" = 0
    ∧ get_numeric_classification "IMF" = 1
    ∧ get_numeric_classification s = -1 := by
  refine ⟨rfl, rfl, rfl, ?_⟩
  unfold get_numeric_classification
  simp only [List.lookup, beq_false_of_ne h1, beq_false_of_ne h2, beq_false_of_ne h3]

/-- Witness for C7 at the unrecognized string "Closed". -/
theorem C7_witness :
    get_numeric_classification "closed" = 2
    ∧ get_numeric_classification "open" = 0
    ∧ get_numeric_classification "IMF" = 1
    ∧ get_numeric_classification "Closed" = -1 :=
  C7_numeric_codes "Closed" (by decide) (by decide) (by decide)

/-- C10: a present XFOOT list with fewer than three components — in
particular the empty list — is still counted as a found footpoint provided no
present component is a sentinel: the sentinel-membership test is vacuously
false over the missing components. -/
theorem C10_short_xfoot_found (xs : List ℚ) (h : ∀ x ∈ xs, x ∉ baddata) :
    check_if_footpoint_found ⟨some xs⟩ = 1
    ∧ check_if_footpoint_found ⟨some []⟩ = 1 := by
  refine ⟨?_, rfl⟩
  have hfalse : (xs.any fun x => decide (x ∈ baddata)) = false := by
    simp only [List.any_eq_false, decide_eq_true_eq]
    exact h
  simp [check_if_footpoint_found, hfalse]

/-- Witness for C10 at a one-component coordinate list. -/
theorem C10_witness :
    check_if_footpoint_found ⟨some [(5 : ℚ)]⟩ = 1
    ∧ check_if_footpoint_found ⟨some []⟩ = 1 :=
  C10_short_xfoot_found [5] (by decide)

/-- C3: a hemisphere query that raises contributes exactly 0 to the
found-count, the other hemisphere's response is still what the count is made
of, and the classifier always returns one of the three classification
strings — no exception from a hemisphere query escapes the classifier. -/
theorem C3_hemisphere_errors_absorbed {σ : Type} (lib : ExternalLib σ)
    (p : Position) (dt : String) (mi : Maginput) :
    (∀ e, (northResponse lib p dt mi).1 = Except.error e →
        footpointsFound lib p dt mi =
          hemiContribution (southResponse lib p dt mi).1)
    ∧ (∀ e, (southResponse lib p dt mi).1 = Except.error e →
        footpointsFound lib p dt mi =
          hemiContribution (northResponse lib p dt mi).1)
    ∧ ((classify_field_line lib p dt mi).1 = "closed" ∨
       (classify_field_line lib p dt mi).1 = "open" ∨
       (classify_field_line lib p dt mi).1 = "IMF") := by
  refine ⟨?_, ?_, classify_fst_mem lib p dt mi⟩
  · intro e he
    rw [footpointsFound_eq, he]
    simp [hemiContribution]
  · intro e he
    rw [footpointsFound_eq, he]
    simp [hemiContribution]

/-- Witness for C3 at the all-raising concrete library. -/
theorem C3_witness :
    footpointsFound unitLibError pos0 dt0 mi0 =
      hemiContribution (southResponse unitLibError pos0 dt0 mi0).1 :=
  (C3_hemisphere_errors_absorbed unitLibError pos0 dt0 mi0).1 "err" rfl

/-- C4: every run of the single-point classifier makes exactly two external
footpoint queries, in the order North (+1) then South (-1), each with stop
altitude 100; each query contributes 0 or 1 to the found-count, and the
found-count after both attempts is always 0, 1 or 2. -/
theorem C4_two_queries_and_bounded_count {σ : Type} (lib : ExternalLib σ)
    (p : Position) (dt : String) (mi : Maginput) :
    (classify_field_line (withLog lib) p dt mi).2.2 =
        [CallEvent.foot 1 100, CallEvent.foot (-1) 100]
    ∧ footpointsFound lib p dt mi =
        hemiContribution (northResponse lib p dt mi).1 +
        hemiContribution (southResponse lib p dt mi).1
    ∧ (∀ r : Except String FootOutput,
        hemiContribution r = 0 ∨ hemiContribution r = 1)
    ∧ (footpointsFound lib p dt mi = 0 ∨ footpointsFound lib p dt mi = 1 ∨
       footpointsFound lib p dt mi = 2) := by
  refine ⟨classify_withLog_log lib p dt mi, footpointsFound_eq lib p dt mi,
    hemiContribution_le_one, ?_⟩
  · have hb := footpointsFound_eq lib p dt mi
    have hn := hemiContribution_le_one (northResponse lib p dt mi).1
    have hs := hemiContribution_le_one (southResponse lib p dt mi).1
    omega

/-- C5: the batch classifier returns exactly the input rows, in order and
unmodified, each paired with its added numeric `field_line_type` code. -/
theorem C5_batch_preserves_rows {σ : Type} (lib : ExternalLib σ)
    (df : List OrbitRow) :
    (process_orbit_data lib df).map Prod.fst = df
    ∧ (process_orbit_data lib df).length = df.length := by
  unfold process_orbit_data
  constructor
  · exact List.map_fst_zip _ _ (by simp)
  · rw [List.length_zip, List.length_map, min_self]

/-- C8: every numeric code the batch pipeline attaches is 0, 1 or 2 — the
-1 branch of `get_numeric_classification` is unreachable through
`process_orbit_data`. -/
theorem C8_codes_in_range {σ : Type} (lib : ExternalLib σ) (df : List OrbitRow)
    (pr : OrbitRow × ℤ) (h : pr ∈ process_orbit_data lib df) :
    pr.2 = 0 ∨ pr.2 = 1 ∨ pr.2 = 2 := by
  rcases pr with ⟨row, code⟩
  unfold process_orbit_data at h
  have h2 := (List.of_mem_zip h).2
  simp only [List.mem_map] at h2
  obtain ⟨row', hmem, hrow'⟩ := h2
  rw [show ((row, code) : OrbitRow × ℤ).2 = code from rfl, ← hrow']
  rcases classify_fst_mem lib
      ⟨row'.x_km / 6371, row'.y_km / 6371, row'.z_km / 6371⟩ row'.datetime
      (prepare_maginput row'.Dst_index row'.Pdyn row'.BY_GSM row'.BZ_GSM)
    with hc | hc | hc <;> rw [hc]
  · exact Or.inr (Or.inr rfl)
  · exact Or.inl rfl
  · exact Or.inr (Or.inl rfl)

/-- Witness for C8 at a concrete one-row table and the all-raising library. -/
theorem C8_witness :
    ((orbitRow0, (1 : ℤ)) : OrbitRow × ℤ).2 = 0 ∨
    ((orbitRow0, (1 : ℤ)) : OrbitRow × ℤ).2 = 1 ∨
    ((orbitRow0, (1 : ℤ)) : OrbitRow × ℤ).2 = 2 :=
  C8_codes_in_range unitLibError [orbitRow0] (orbitRow0, 1) (by decide)

/-- C6 counterexample: at a concrete input and a concrete succeeding external
library, a run of test_classifier.py's `classify_field_line` does invoke the
field-line-tracing routine during classification: the logged call sequence of
the run contains a trace call. -/
theorem C6_counterexample :
    CallEvent.trace ∈
      (TestClassifier.classify_field_line (withLog unitLibOk)
        pos0 dt0 mi0 false).2.2 := by
  simp [TestClassifier.classify_field_line, withLog, unitLibOk, List.foldl]

/-- C6 amended: in classifying_foottype.py the classifier never invokes the
tracing routine and its result is unchanged under any replacement of the
tracing routine; in test_classifier.py the classifier does invoke
`trace_field_line` on every run, but the tracing is consumed for plotting
only — when the trace call succeeds, the returned classification is the same
for any two trace outputs and any plot flags. -/
theorem C6_trace_only_for_plotting {σ : Type} (lib : ExternalLib σ)
    (p : Position) (dt : String) (mi : Maginput) :
    CallEvent.trace ∉ (classify_field_line (withLog lib) p dt mi).2.2
    ∧ (∀ t, classify_field_line { lib with trace_field_line := t } p dt mi =
        classify_field_line lib p dt mi)
    ∧ (∀ (out out' : TraceOutput) (f : σ → LLA → Maginput → σ)
        (plot plot' : Bool),
        TestClassifier.classify_field_line
          { lib with trace_field_line := fun s lla mi2 => (Except.ok out, f s lla mi2) }
          p dt mi plot =
        TestClassifier.classify_field_line
          { lib with trace_field_line := fun s lla mi2 => (Except.ok out', f s lla mi2) }
          p dt mi plot')
    ∧ CallEvent.trace ∈
        (TestClassifier.classify_field_line (withLog lib) p dt mi false).2.2 := by
  refine ⟨?_, fun t => rfl, fun out out' f plot plot' => rfl, ?_⟩
  · rw [classify_withLog_log]
    simp
  · unfold TestClassifier.classify_field_line withLog
    rcases htr : lib.trace_field_line (lib.init ⟨[0, 0, 0, 0, 0], false, 7, 3⟩)
        ⟨p.x1, p.x2, p.x3, dt⟩ mi with ⟨rt, st⟩
    rcases rt with e | out
    · simp [htr]
    · simp only [List.foldl, htr]
      rcases h1 : lib.find_foot_point st ⟨p.x1, p.x2, p.x3, dt⟩ mi 100 1 with ⟨r1, s1⟩
      rcases h2 : lib.find_foot_point s1 ⟨p.x1, p.x2, p.x3, dt⟩ mi 100 (-1) with ⟨r2, s2⟩
      rcases r1 with e1 | o1 <;> rcases r2 with e2 | o2 <;> simp [h1, h2]

/-- C9: the classify_field_line functions of classifying_foottype.py and
test_classifyer.py are extensionally equal: for any external library whose
constructor ignores the verbosity flag (the one constructor argument on which
the two scripts differ — a pure logging control of the out-of-scope
collaborator, per the spec), both return the same classification string and
final state on every input and every external behaviour, raising included. -/
theorem C9_variants_extensionally_equal {σ : Type} (lib : ExternalLib σ)
    (p : Position) (dt : String) (mi : Maginput)
    (h : ∀ (opts : List ℤ) (v v' : Bool) (k sx : ℤ),
      lib.init ⟨opts, v, k, sx⟩ = lib.init ⟨opts, v', k, sx⟩) :
    TestClassifyer.classify_field_line lib p dt mi =
      classify_field_line lib p dt mi := by
  have hinit : lib.init ⟨[0, 0, 0, 0, 0], false, 7, 3⟩ =
      lib.init ⟨[0, 0, 0, 0, 0], true, 7, 3⟩ :=
    h [0, 0, 0, 0, 0] false true 7 3
  unfold TestClassifyer.classify_field_line classify_field_line
  rw [hinit]
  exact rfl

/-- Witness for C9 at a concrete library whose constructor is constant. -/
theorem C9_witness :
    TestClassifyer.classify_field_line unitLibError pos0 dt0 mi0 =
      classify_field_line unitLibError pos0 dt0 mi0 :=
  C9_variants_extensionally_equal unitLibError pos0 dt0 mi0
    (fun _ _ _ _ _ => rfl)

/-- Witness for the amended C6 statement at a concrete library and input. -/
theorem C6_witness :
    CallEvent.trace ∉
      (classify_field_line (withLog unitLibOk) pos0 dt0 mi0).2.2 :=
  (C6_trace_only_for_plotting unitLibOk pos0 dt0 mi0).1
